import Mathlib

/-!
Verification of the cookie-signing service in `flask_login/main.py`.

Shallow embedding conventions:
* Python strings and byte strings are modeled as `List Nat` of their UTF-8
  byte values (all literals appearing in the program are ASCII, where the
  two notions coincide character by character).
* `datetime` values are modeled by their exact offset from the Unix epoch
  in microseconds (`Int`), the resolution of Python's `datetime`;
  `timedelta.total_seconds()` is modeled with exact rational arithmetic
  instead of IEEE floating point (all values arising in the program are
  whole seconds, where the two agree exactly).
* Fallible operations (`base64.urlsafe_b64decode` raising `binascii.Error`
  or `ValueError`, the Secret Manager call raising) return `Option`;
  `none` models a raised exception propagating out of the handler.
* The Flask session, the wall clock and the remote secret store are
  explicit parameters of the handler functions.
-/

/-- Byte values (UTF-8) of an ASCII string literal. -/
def asciiBytes (s : String) : List Nat := s.data.map Char.toNat

/-- Bytes stripped by Python's `str.strip()` / `str.rstrip()` in the ASCII
range: `\t`, `\n`, `\v`, `\f`, `\r`, space, and `\x1c`-`\x1f`. -/
def isPySpace (c : Nat) : Bool :=
  decide ((9 ≤ c ∧ c ≤ 13) ∨ c = 32 ∨ (28 ≤ c ∧ c ≤ 31))

/-- Python `str.strip()` at byte level: drop leading and trailing whitespace. -/
def stripBytes (l : List Nat) : List Nat :=
  ((l.dropWhile isPySpace).reverse.dropWhile isPySpace).reverse

/-- Python `str.rstrip()` at byte level: drop trailing whitespace. -/
def rstripBytes (l : List Nat) : List Nat :=
  (l.reverse.dropWhile isPySpace).reverse

/-- The URL-safe base64 alphabet (`-`/`_` variant), as in Python's
`base64.urlsafe_b64encode`: index `0`-`63` to ASCII code. -/
def b64UrlChar (n : Nat) : Nat :=
  if n < 26 then 65 + n
  else if n < 52 then 97 + (n - 26)
  else if n < 62 then 48 + (n - 52)
  else if n = 62 then 45
  else 95

/-- Python `base64.urlsafe_b64encode` over bytes, producing the ASCII bytes
of the encoding, `=`-padded. -/
def urlsafe_b64encode : List Nat → List Nat
  | [] => []
  | [b0] => [b64UrlChar (b0 >>> 2), b64UrlChar ((b0 % 4) <<< 4), 61, 61]
  | [b0, b1] => [b64UrlChar (b0 >>> 2), b64UrlChar (((b0 % 4) <<< 4) ||| (b1 >>> 4)),
                 b64UrlChar ((b1 % 16) <<< 2), 61]
  | b0 :: b1 :: b2 :: rest =>
      b64UrlChar (b0 >>> 2) :: b64UrlChar (((b0 % 4) <<< 4) ||| (b1 >>> 4)) ::
      b64UrlChar (((b1 % 16) <<< 2) ||| (b2 >>> 6)) :: b64UrlChar (b2 % 64) ::
      urlsafe_b64encode rest

/-- Value of one base64 character after `urlsafe_b64decode`'s `-_` → `+/`
translation, so both the standard and the URL-safe alphabet are accepted;
`none` for characters outside the alphabet (ignored by the decoder). -/
def b64Val (c : Nat) : Option Nat :=
  if 65 ≤ c ∧ c ≤ 90 then some (c - 65)
  else if 97 ≤ c ∧ c ≤ 122 then some (c - 97 + 26)
  else if 48 ≤ c ∧ c ≤ 57 then some (c - 48 + 52)
  else if c = 43 ∨ c = 45 then some 62
  else if c = 47 ∨ c = 95 then some 63
  else none

/-- CPython's `binascii.a2b_base64` in non-strict mode (what
`base64.b64decode(validate=False)` calls): characters outside the alphabet
are discarded; a `=` at quad position ≥ 2 counts toward padding and
terminates the decode once the quad is completed by pads; input ending at a
quad position ≠ 0 is an error (`none`). State: remaining input, quad
position, leftover bits, pad count, reversed output accumulator. -/
def a2bB64 : List Nat → Nat → Nat → Nat → List Nat → Option (List Nat)
  | [], qp, _, _, acc => if qp = 0 then some acc.reverse else none
  | c :: rest, qp, lc, pads, acc =>
    if c = 61 then
      if 2 ≤ qp then
        if 4 ≤ qp + (pads + 1) then some acc.reverse
        else a2bB64 rest qp lc (pads + 1) acc
      else a2bB64 rest qp lc pads acc
    else
      match b64Val c with
      | none => a2bB64 rest qp lc pads acc
      | some v =>
        match qp with
        | 0 => a2bB64 rest 1 v 0 acc
        | 1 => a2bB64 rest 2 (v % 16) 0 (((lc <<< 2) ||| (v >>> 4)) :: acc)
        | 2 => a2bB64 rest 3 (v % 4) 0 (((lc <<< 4) ||| (v >>> 2)) :: acc)
        | _ => a2bB64 rest 0 0 0 (((lc <<< 6) ||| v) :: acc)

/-- Python `base64.urlsafe_b64decode` applied to a `str`: the string is
first ASCII-encoded (failing on any non-ASCII character), `-`/`_` are
translated to `+`/`/`, and the result is decoded non-strictly. -/
def urlsafe_b64decode (s : List Nat) : Option (List Nat) :=
  if s.all (fun c => decide (c < 128)) then a2bB64 s 0 0 0 [] else none

/-- 2^32, the word modulus of SHA-1. -/
def w32 : Nat := 4294967296

/-- Rotate a 32-bit word left by `n` (for `x < 2^32`, `1 ≤ n ≤ 31`). -/
def rotl (n x : Nat) : Nat :=
  ((x <<< n) % w32) ||| (x >>> (32 - n))

/-- Big-endian 32-bit words of a byte list (length a multiple of 4). -/
def beWords : List Nat → List Nat
  | b0 :: b1 :: b2 :: b3 :: rest =>
      (((b0 * 256 + b1) * 256 + b2) * 256 + b3) :: beWords rest
  | _ => []

/-- Big-endian 4-byte encoding of a 32-bit word. -/
def beBytes4 (n : Nat) : List Nat :=
  [(n >>> 24) % 256, (n >>> 16) % 256, (n >>> 8) % 256, n % 256]

/-- Big-endian 8-byte encoding of a 64-bit value. -/
def beBytes8 (n : Nat) : List Nat :=
  [(n >>> 56) % 256, (n >>> 48) % 256, (n >>> 40) % 256, (n >>> 32) % 256,
   (n >>> 24) % 256, (n >>> 16) % 256, (n >>> 8) % 256, n % 256]

/-- SHA-1 message padding: `0x80`, zeros to 56 mod 64, then the bit length
as a big-endian 64-bit value. -/
def padMsg (m : List Nat) : List Nat :=
  m ++ 128 :: List.replicate ((119 - m.length % 64) % 64) 0 ++
    beBytes8 ((8 * m.length) % (w32 * w32))

/-- Split a byte list into 64-byte blocks (fuel-based so it reduces in the
kernel; the fuel `l.length` always suffices). -/
def toBlocksF : Nat → List Nat → List (List Nat)
  | _, [] => []
  | 0, _ => []
  | fuel + 1, l => l.take 64 :: toBlocksF fuel (l.drop 64)

/-- Split a byte list into 64-byte blocks. -/
def toBlocks (l : List Nat) : List (List Nat) := toBlocksF l.length l

/-- Extend the 16 message words to 80: each new word is
`rotl 1 (w[t-3] xor w[t-8] xor w[t-14] xor w[t-16])`; the accumulator is
kept most-recent-first. -/
def schedRev : Nat → List Nat → List Nat
  | 0, acc => acc
  | n + 1, acc =>
      schedRev n
        (rotl 1 ((acc.getD 2 0) ^^^ (acc.getD 7 0) ^^^ (acc.getD 13 0) ^^^ (acc.getD 15 0)) :: acc)

/-- The 80-word SHA-1 message schedule of a 16-word block. -/
def schedule (ws : List Nat) : List Nat :=
  (schedRev 64 ws.reverse).reverse

/-- SHA-1 round function, by round index. -/
def sha1F (t b c d : Nat) : Nat :=
  if t < 20 then (b &&& c) ||| ((b ^^^ (w32 - 1)) &&& d)
  else if t < 40 then b ^^^ c ^^^ d
  else if t < 60 then (b &&& c) ||| (b &&& d) ||| (c &&& d)
  else b ^^^ c ^^^ d

/-- SHA-1 round constants, by round index. -/
def sha1K (t : Nat) : Nat :=
  if t < 20 then 1518500249
  else if t < 40 then 1859775393
  else if t < 60 then 2400959708
  else 3395469782

/-- The 80 SHA-1 rounds over (round index, schedule word) pairs. -/
def sha1Rounds : List (Nat × Nat) → Nat × Nat × Nat × Nat × Nat → Nat × Nat × Nat × Nat × Nat
  | [], st => st
  | (t, wt) :: rest, (a, b, c, d, e) =>
      sha1Rounds rest
        ((rotl 5 a + sha1F t b c d + e + wt + sha1K t) % w32, a, rotl 30 b, c, d)

/-- One SHA-1 compression step: run 80 rounds over a 64-byte block and add
the result into the chaining state. -/
def sha1Block (h : Nat × Nat × Nat × Nat × Nat) (block : List Nat) :
    Nat × Nat × Nat × Nat × Nat :=
  let w := schedule (beWords block)
  let s := sha1Rounds ((List.range 80).zip w) h
  (((h.1 + s.1) % w32), ((h.2.1 + s.2.1) % w32), ((h.2.2.1 + s.2.2.1) % w32),
   ((h.2.2.2.1 + s.2.2.2.1) % w32), ((h.2.2.2.2 + s.2.2.2.2) % w32))

/-- SHA-1 digest (20 bytes) of a byte list, as in `hashlib.sha1`. -/
def sha1Digest (m : List Nat) : List Nat :=
  let s := (toBlocks (padMsg m)).foldl sha1Block
    (1732584193, 4023233417, 2562383102, 271733878, 3285377520)
  beBytes4 s.1 ++ beBytes4 s.2.1 ++ beBytes4 s.2.2.1 ++ beBytes4 s.2.2.2.1 ++
    beBytes4 s.2.2.2.2

/-- HMAC-SHA1 as in Python's `hmac.new(key, msg, hashlib.sha1).digest()`:
block size 64, keys longer than a block are first hashed. -/
def hmacSha1 (key msg : List Nat) : List Nat :=
  let k0 := if 64 < key.length then sha1Digest key else key
  let kPad := k0 ++ List.replicate (64 - k0.length) 0
  let ipad := kPad.map (fun b => b ^^^ 54)
  let opad := kPad.map (fun b => b ^^^ 92)
  sha1Digest (opad ++ sha1Digest (ipad ++ msg))

/-- Little-endian decimal digits of `n` (ASCII codes), with fuel. -/
def natDecAux : Nat → Nat → List Nat
  | 0, _ => []
  | fuel + 1, n => if n = 0 then [] else (48 + n % 10) :: natDecAux fuel (n / 10)

/-- ASCII bytes of the decimal representation of a `Nat`, as Python's
`str.format` renders a nonnegative `int`. -/
def natDecBytes (n : Nat) : List Nat :=
  if n = 0 then [48] else (natDecAux (n + 1) n).reverse

/-- ASCII bytes of the decimal representation of an `Int`. -/
def intDecBytes : Int → List Nat
  | .ofNat n => natDecBytes n
  | .negSucc m => 45 :: natDecBytes (m + 1)

/-- Models `int((expiration_time - epoch).total_seconds())` on a `datetime`
that lies `micros` microseconds from the epoch: the exact number of seconds
truncated toward zero (Python's `int()` cast on a float; modeled with exact
arithmetic). -/
def totalSecondsTrunc : Int → Int
  | .ofNat n => Int.ofNat (n / 1000000)
  | .negSucc m => -(Int.ofNat ((m + 1) / 1000000))

/-- The Policy string of `sign_cookie` (the `policy_pattern` format applied
to the encoded URL prefix, the expiration timestamp and the key name). -/
def policyBytes (urlPref keyName : List Nat) (ts : Int) : List Nat :=
  asciiBytes "URLPrefix=" ++ urlsafe_b64encode (stripBytes urlPref) ++
    asciiBytes ":Expires=" ++ intDecBytes ts ++ asciiBytes ":KeyName=" ++ keyName

/-- `sign_cookie(url_prefix, key_name, base64_key, expiration_time)` from
`main.py`. `expirationMicros` is the expiration `datetime` as microseconds
from the epoch. `none` models the exception raised by
`base64.urlsafe_b64decode` on a malformed key, the only fallible step. -/
def sign_cookie (urlPref keyName base64Key : List Nat) (expirationMicros : Int) :
    Option (List Nat) :=
  let ts := totalSecondsTrunc expirationMicros
  match urlsafe_b64decode base64Key with
  | none => none
  | some decodedKey =>
      let policy := policyBytes urlPref keyName ts
      let digest := hmacSha1 decodedKey policy
      some (policy ++ asciiBytes ":Signature=" ++ urlsafe_b64encode digest)

/-- Python `str.replace(old, new)`: replace every non-overlapping occurrence
left to right (fuel-based; `s.length` fuel suffices for nonempty `old`). -/
def leadsWith : List Nat → List Nat → Bool
  | [], _ => true
  | _ :: _, [] => false
  | a :: as, b :: bs => a == b && leadsWith as bs

/-- Worker for `pyReplace`. -/
def pyReplaceF : Nat → List Nat → List Nat → List Nat → List Nat
  | 0, s, _, _ => s
  | fuel + 1, s, old, new =>
      if leadsWith old s then new ++ pyReplaceF fuel (s.drop old.length) old new
      else
        match s with
        | [] => []
        | c :: rest => c :: pyReplaceF fuel rest old new

/-- Python `s.replace(old, new)` for nonempty `old`. -/
def pyReplace (s old new : List Nat) : List Nat := pyReplaceF s.length s old new

/-- One `Set-Cookie` emitted via Flask's `resp.set_cookie`. -/
structure SetCookie where
  name : List Nat
  value : List Nat
  expires : Int
  path : List Nat
deriving DecidableEq

/-- The body of a handler's HTTP response: a redirect (Flask's `redirect`,
status 302) carrying the cookies set on it, or a plain page body (which sets
no cookie). -/
inductive HttpResult where
  | redirectResp (location : List Nat) (status : Nat) (cookies : List SetCookie)
  | pageResp (body : List Nat)
deriving DecidableEq

/-- Everything observable about one handled request: the session's
`logged_in` flag after the handler ran, the secret ids fetched from the
secret store during the request, and the response (`none` models an
uncaught exception, i.e. a fatal 500-class server error). -/
structure ReqOutcome where
  sessionLoggedIn : Bool
  secretIds : List (List Nat)
  response : Option HttpResult
deriving DecidableEq

/-- The environment-derived module globals of `main.py`. -/
structure AppConfig where
  project_id : List Nat
  cdn_sign_key_name : List Nat
  web_url : List Nat
  gcs_path : List Nat

/-- The byte string `"latest"`, the default `version_id` of `get_secret`. -/
def latestBytes : List Nat := asciiBytes "latest"

/-- `get_secret(secret_id, version_id)` from `main.py`: build the resource
name, query the store (`none` models `access_secret_version` raising), and
return the payload right-stripped of trailing whitespace (the payload's
UTF-8 decode is the identity in the byte-level model). -/
def get_secret (projectId : List Nat) (store : List Nat → Option (List Nat))
    (secretId versionId : List Nat) : Option (List Nat) :=
  let name := asciiBytes "projects/" ++ projectId ++ asciiBytes "/secrets/" ++
    secretId ++ asciiBytes "/versions/" ++ versionId
  match store name with
  | none => none
  | some data => some (rstripBytes data)

/-- The `home` handler (`GET /`). `loggedIn` is the session's `logged_in`
flag on entry, `now` the value of `int(time.time())`, `requestUrl` the bytes
of `request.url`. Note the handler sets the session flag before fetching
the signing key; `utcfromtimestamp(expire_time)` lies
`expire_time * 10^6` microseconds from the epoch. -/
def home (cfg : AppConfig) (store : List Nat → Option (List Nat))
    (loggedIn : Bool) (now : Nat) (requestUrl : List Nat) : ReqOutcome :=
  match loggedIn with
  | false =>
      let expire_time := now + 3600 * 24 * 7
      match get_secret cfg.project_id store cfg.cdn_sign_key_name latestBytes with
      | none => { sessionLoggedIn := true, secretIds := [cfg.cdn_sign_key_name],
                  response := none }
      | some keyVal =>
          match sign_cookie cfg.web_url cfg.cdn_sign_key_name keyVal
              (Int.ofNat (expire_time * 1000000)) with
          | none => { sessionLoggedIn := true, secretIds := [cfg.cdn_sign_key_name],
                      response := none }
          | some cookie =>
              { sessionLoggedIn := true, secretIds := [cfg.cdn_sign_key_name],
                response := some (.redirectResp
                  (pyReplace requestUrl (asciiBytes "http:") (asciiBytes "https:")) 302
                  [⟨asciiBytes "Cloud-CDN-Cookie", cookie, Int.ofNat expire_time,
                    cfg.gcs_path⟩]) }
  | true =>
      { sessionLoggedIn := true, secretIds := [],
        response := some (.pageResp (asciiBytes
          "File not found! You have already logged in. <a href=\"/logout\">Logout</a>")) }

/-- The `logout` handler (`GET /logout`): `session.clear()`, a 302 redirect
to `/?gcp-iap-mode=CLEAR_LOGIN_COOKIE`, and the CDN cookie overwritten with
the empty value and `expires=0` (the epoch). It never touches the store. -/
def logout (cfg : AppConfig) (_loggedIn : Bool) : ReqOutcome :=
  { sessionLoggedIn := false, secretIds := [],
    response := some (.redirectResp (asciiBytes "/?gcp-iap-mode=CLEAR_LOGIN_COOKIE")
      302 [⟨asciiBytes "Cloud-CDN-Cookie", [], 0, cfg.gcs_path⟩]) }

/-- The redirect location of an outcome, when its response is a redirect. -/
def respLocation (r : ReqOutcome) : Option (List Nat) :=
  match r.response with
  | some (.redirectResp loc _ _) => some loc
  | _ => none

/-- Modelled from the spec: "valid URL-safe base64" (section 4.1's contract
and the glossary), which the repository never defines as code — a string of
complete 4-character groups over the `-`/`_` alphabet, where only the final
group may end in `=` padding (two data characters and `==`, or three and
`=`). Used to compare the spec's stated failure condition with the code's
actual one. -/
def isUrlB64Char (c : Nat) : Bool :=
  decide ((65 ≤ c ∧ c ≤ 90) ∨ (97 ≤ c ∧ c ≤ 122) ∨ (48 ≤ c ∧ c ≤ 57) ∨ c = 45 ∨ c = 95)

/-- Modelled from the spec: see `isUrlB64Char`. -/
def specValidUrlsafeB64 : List Nat → Bool
  | [] => true
  | c1 :: c2 :: c3 :: c4 :: rest =>
      isUrlB64Char c1 && isUrlB64Char c2 &&
      (if rest = [] ∧ c3 = 61 ∧ c4 = 61 then true
       else if rest = [] ∧ c4 = 61 then isUrlB64Char c3
       else isUrlB64Char c3 && isUrlB64Char c4 && specValidUrlsafeB64 rest)
  | _ => false

/-- A concrete configuration for witnesses and counterexamples. -/
def cfg0 : AppConfig :=
  { project_id := asciiBytes "p", cdn_sign_key_name := asciiBytes "k",
    web_url := asciiBytes "u", gcs_path := asciiBytes "/" }

/-- A concrete secret store that always answers with the key `"AAAA"`
(URL-safe base64 for three zero bytes). -/
def store0 : List Nat → Option (List Nat) := fun _ => some (asciiBytes "AAAA")

/-! ## Helper lemmas -/

theorem sign_cookie_eq_of_decode (urlPref keyName base64Key : List Nat) (micros : Int)
    (decodedKey : List Nat) (h : urlsafe_b64decode base64Key = some decodedKey) :
    sign_cookie urlPref keyName base64Key micros =
      some (policyBytes urlPref keyName (totalSecondsTrunc micros) ++
        asciiBytes ":Signature=" ++
        urlsafe_b64encode (hmacSha1 decodedKey
          (policyBytes urlPref keyName (totalSecondsTrunc micros)))) := by
  simp only [sign_cookie, h]

theorem totalSecondsTrunc_whole (n : Nat) :
    totalSecondsTrunc (Int.ofNat (n * 1000000)) = Int.ofNat n := by
  show Int.ofNat (n * 1000000 / 1000000) = Int.ofNat n
  exact congrArg Int.ofNat (by omega)

theorem home_issue_shape (cfg : AppConfig) (store : List Nat → Option (List Nat))
    (now : Nat) (url keyVal decodedKey : List Nat)
    (h1 : get_secret cfg.project_id store cfg.cdn_sign_key_name latestBytes = some keyVal)
    (h2 : urlsafe_b64decode keyVal = some decodedKey) :
    home cfg store false now url =
      { sessionLoggedIn := true, secretIds := [cfg.cdn_sign_key_name],
        response := some (.redirectResp
          (pyReplace url (asciiBytes "http:") (asciiBytes "https:")) 302
          [⟨asciiBytes "Cloud-CDN-Cookie",
            policyBytes cfg.web_url cfg.cdn_sign_key_name (Int.ofNat (now + 604800)) ++
              asciiBytes ":Signature=" ++
              urlsafe_b64encode (hmacSha1 decodedKey
                (policyBytes cfg.web_url cfg.cdn_sign_key_name (Int.ofNat (now + 604800)))),
            Int.ofNat (now + 604800), cfg.gcs_path⟩]) } := by
  have e1 : now + 3600 * 24 * 7 = now + 604800 := by norm_num
  have hsc := sign_cookie_eq_of_decode cfg.web_url cfg.cdn_sign_key_name keyVal
    (Int.ofNat ((now + 3600 * 24 * 7) * 1000000)) decodedKey h2
  rw [totalSecondsTrunc_whole] at hsc
  simp only [home, h1, hsc, e1]

/-! ## Claims -/

/-- C1: for every urlPrefix, keyName, decodable base64Key and expiration
time, `sign_cookie` returns `"URLPrefix=" ++ base64url(utf8(trim urlPrefix))
++ ":Expires=" ++ decimal timestamp ++ ":KeyName=" ++ keyName ++
":Signature=" ++ base64url(HMAC-SHA1(decoded key, Policy))`; and at the
concrete vector (urlPrefix `https://example.com/`, keyName `my-key`, key
`AAAAAAAAAAAAAAAAAAAAAA==`, expiration 2024-01-01T00:00:00Z) the Policy
part is exactly
`URLPrefix=aHR0cHM6Ly9leGFtcGxlLmNvbS8=:Expires=1704067200:KeyName=my-key`. -/
theorem sign_cookie_formula :
    (∀ urlPref keyName base64Key micros decodedKey,
        urlsafe_b64decode base64Key = some decodedKey →
        sign_cookie urlPref keyName base64Key micros =
          some (policyBytes urlPref keyName (totalSecondsTrunc micros) ++
            asciiBytes ":Signature=" ++
            urlsafe_b64encode (hmacSha1 decodedKey
              (policyBytes urlPref keyName (totalSecondsTrunc micros))))) ∧
    policyBytes (asciiBytes "https://example.com/") (asciiBytes "my-key")
        (totalSecondsTrunc (Int.ofNat (1704067200 * 1000000))) =
      asciiBytes "URLPrefix=aHR0cHM6Ly9leGFtcGxlLmNvbS8=:Expires=1704067200:KeyName=my-key" := by
  constructor
  · intro urlPref keyName base64Key micros decodedKey h
    exact sign_cookie_eq_of_decode urlPref keyName base64Key micros decodedKey h
  · decide

/-- C1 witness: the formula applied at the concrete vector of the spec. -/
theorem sign_cookie_formula_witness :
    urlsafe_b64decode (asciiBytes "AAAAAAAAAAAAAAAAAAAAAA==") = some (List.replicate 16 0) ∧
    sign_cookie (asciiBytes "https://example.com/") (asciiBytes "my-key")
        (asciiBytes "AAAAAAAAAAAAAAAAAAAAAA==") (Int.ofNat (1704067200 * 1000000)) =
      some (policyBytes (asciiBytes "https://example.com/") (asciiBytes "my-key")
          (totalSecondsTrunc (Int.ofNat (1704067200 * 1000000))) ++
        asciiBytes ":Signature=" ++
        urlsafe_b64encode (hmacSha1 (List.replicate 16 0)
          (policyBytes (asciiBytes "https://example.com/") (asciiBytes "my-key")
            (totalSecondsTrunc (Int.ofNat (1704067200 * 1000000)))))) :=
  ⟨by decide, sign_cookie_formula.1 (asciiBytes "https://example.com/") (asciiBytes "my-key")
    (asciiBytes "AAAAAAAAAAAAAAAAAAAAAA==") (Int.ofNat (1704067200 * 1000000))
    (List.replicate 16 0) (by decide)⟩

/-- C2: every output of `sign_cookie` splits as `Policy ++ ":Signature=" ++
Signature` where recomputing HMAC-SHA1 with the decoded key over the Policy
part and base64url-encoding the digest reproduces the Signature part. -/
theorem sign_cookie_round_trip :
    ∀ urlPref keyName base64Key micros out decodedKey,
      urlsafe_b64decode base64Key = some decodedKey →
      sign_cookie urlPref keyName base64Key micros = some out →
      ∃ pol sig, out = pol ++ asciiBytes ":Signature=" ++ sig ∧
        urlsafe_b64encode (hmacSha1 decodedKey pol) = sig := by
  intro urlPref keyName base64Key micros out decodedKey h hout
  rw [sign_cookie_eq_of_decode urlPref keyName base64Key micros decodedKey h] at hout
  exact ⟨_, _, (Option.some_inj.mp hout).symm, rfl⟩

/-- C2 witness: the round trip at a concrete output of `sign_cookie`. -/
theorem sign_cookie_round_trip_witness :
    ∃ pol sig,
      policyBytes [] [] (totalSecondsTrunc 0) ++ asciiBytes ":Signature=" ++
          urlsafe_b64encode (hmacSha1 [] (policyBytes [] [] (totalSecondsTrunc 0))) =
        pol ++ asciiBytes ":Signature=" ++ sig ∧
      urlsafe_b64encode (hmacSha1 [] pol) = sig :=
  sign_cookie_round_trip [] [] [] 0 _ [] (by decide)
    (sign_cookie_eq_of_decode [] [] [] 0 [] (by decide))

/-- C3: the Expires field embedded in the Policy is the integer number of
whole seconds from the epoch, truncated (the integer cast of
`total_seconds()`): the field renders `totalSecondsTrunc micros`, which on
`secs` seconds plus a sub-second remainder is exactly `secs`; in particular
epoch + 1,000,000 seconds renders as `1000000`. -/
theorem expires_truncation :
    (∀ urlPref keyName base64Key micros decodedKey,
        urlsafe_b64decode base64Key = some decodedKey →
        ∃ pre post,
          sign_cookie urlPref keyName base64Key micros =
            some (pre ++ asciiBytes ":Expires=" ++
              intDecBytes (totalSecondsTrunc micros) ++ asciiBytes ":KeyName=" ++ post)) ∧
    (∀ secs rem : Nat, rem < 1000000 →
        totalSecondsTrunc (Int.ofNat (secs * 1000000 + rem)) = Int.ofNat secs) ∧
    intDecBytes (totalSecondsTrunc (Int.ofNat (1000000 * 1000000))) = asciiBytes "1000000" := by
  refine ⟨?_, ?_, by decide⟩
  · intro urlPref keyName base64Key micros decodedKey h
    refine ⟨asciiBytes "URLPrefix=" ++ urlsafe_b64encode (stripBytes urlPref),
      keyName ++ asciiBytes ":Signature=" ++
        urlsafe_b64encode (hmacSha1 decodedKey
          (policyBytes urlPref keyName (totalSecondsTrunc micros))), ?_⟩
    rw [sign_cookie_eq_of_decode urlPref keyName base64Key micros decodedKey h]
    simp [policyBytes, List.append_assoc]
  · intro secs rem hrem
    show Int.ofNat ((secs * 1000000 + rem) / 1000000) = Int.ofNat secs
    exact congrArg Int.ofNat (by omega)

/-- C3 witness: the truncation applied at epoch + 10^6 seconds. -/
theorem expires_truncation_witness :
    urlsafe_b64decode [] = some [] ∧
    (∃ pre post, sign_cookie [] [] [] (Int.ofNat (1000000 * 1000000)) =
      some (pre ++ asciiBytes ":Expires=" ++
        intDecBytes (totalSecondsTrunc (Int.ofNat (1000000 * 1000000))) ++
        asciiBytes ":KeyName=" ++ post)) :=
  ⟨by decide, expires_truncation.1 [] [] [] (Int.ofNat (1000000 * 1000000)) [] (by decide)⟩

/-- C9: `sign_cookie` is deterministic — equal argument tuples give equal
results (the embedding is a pure function of exactly these four inputs,
matching the side-effect-free source). -/
theorem sign_cookie_deterministic :
    ∀ u1 k1 b1 t1 u2 k2 b2 t2, u1 = u2 → k1 = k2 → b1 = b2 → t1 = t2 →
      sign_cookie u1 k1 b1 t1 = sign_cookie u2 k2 b2 t2 := by
  intro u1 k1 b1 t1 u2 k2 b2 t2 h1 h2 h3 h4
  subst h1; subst h2; subst h3; subst h4
  rfl

/-- C9 witness: determinism at a concrete argument tuple. -/
theorem sign_cookie_deterministic_witness :
    sign_cookie [] [] [] 0 = sign_cookie [] [] [] 0 :=
  sign_cookie_deterministic [] [] [] 0 [] [] [] 0 rfl rfl rfl rfl

/-- C4: a `GET /` with the session flag unset yields a redirect that sets
`Cloud-CDN-Cookie` with a nonempty value whose expiry — both the cookie's
transport-level `expires` and the `:Expires=` field inside the signed
value — is the request clock plus exactly 604800 seconds; with the flag
set it yields the informational body, which sets no cookie and performs no
secret fetch. -/
theorem home_session_transition :
    (∀ cfg store now url keyVal decodedKey,
        get_secret cfg.project_id store cfg.cdn_sign_key_name latestBytes = some keyVal →
        urlsafe_b64decode keyVal = some decodedKey →
        ∃ loc cookieVal pre post,
          home cfg store false now url =
            { sessionLoggedIn := true, secretIds := [cfg.cdn_sign_key_name],
              response := some (.redirectResp loc 302
                [⟨asciiBytes "Cloud-CDN-Cookie", cookieVal, Int.ofNat (now + 604800),
                  cfg.gcs_path⟩]) } ∧
          cookieVal ≠ [] ∧
          cookieVal = pre ++ asciiBytes ":Expires=" ++ natDecBytes (now + 604800) ++
            asciiBytes ":KeyName=" ++ post) ∧
    (∀ cfg store now url,
        home cfg store true now url =
          { sessionLoggedIn := true, secretIds := [],
            response := some (.pageResp (asciiBytes
              "File not found! You have already logged in. <a href=\"/logout\">Logout</a>")) }) := by
  constructor
  · intro cfg store now url keyVal decodedKey h1 h2
    refine ⟨_, _,
      asciiBytes "URLPrefix=" ++ urlsafe_b64encode (stripBytes cfg.web_url),
      cfg.cdn_sign_key_name ++ asciiBytes ":Signature=" ++
        urlsafe_b64encode (hmacSha1 decodedKey
          (policyBytes cfg.web_url cfg.cdn_sign_key_name (Int.ofNat (now + 604800)))),
      home_issue_shape cfg store now url keyVal decodedKey h1 h2, ?_, ?_⟩
    · intro hc
      have hpol := (List.append_eq_nil.mp (List.append_eq_nil.mp hc).1).1
      rw [policyBytes] at hpol
      have hhd := (List.append_eq_nil.mp (List.append_eq_nil.mp (List.append_eq_nil.mp
        (List.append_eq_nil.mp (List.append_eq_nil.mp hpol).1).1).1).1).1
      exact (by decide : asciiBytes "URLPrefix=" ≠ []) hhd
    · simp [policyBytes, intDecBytes, List.append_assoc]
  · intro cfg store now url
    rfl

/-- C4 witness: the transition at a concrete configuration and store. -/
theorem home_session_transition_witness :
    get_secret cfg0.project_id store0 cfg0.cdn_sign_key_name latestBytes =
        some (asciiBytes "AAAA") ∧
    urlsafe_b64decode (asciiBytes "AAAA") = some [0, 0, 0] ∧
    (∃ loc cookieVal pre post,
      home cfg0 store0 false 0 [] =
        { sessionLoggedIn := true, secretIds := [cfg0.cdn_sign_key_name],
          response := some (.redirectResp loc 302
            [⟨asciiBytes "Cloud-CDN-Cookie", cookieVal, Int.ofNat (0 + 604800),
              cfg0.gcs_path⟩]) } ∧
      cookieVal ≠ [] ∧
      cookieVal = pre ++ asciiBytes ":Expires=" ++ natDecBytes (0 + 604800) ++
        asciiBytes ":KeyName=" ++ post) :=
  ⟨by decide, by decide,
    home_session_transition.1 cfg0 store0 0 [] (asciiBytes "AAAA") [0, 0, 0]
      (by decide) (by decide)⟩

/-- C5 (amended): when the secret fetch fails, the login transition aborts
with a fatal error — no response is produced (the exception propagates), no
`Cloud-CDN-Cookie` is emitted, and the store was queried exactly once (no
retry) — but the handler has already set the session's logged-in flag
before the fetch, so that partial state of the transition remains. -/
theorem home_secret_failure :
    ∀ cfg store now url,
      get_secret cfg.project_id store cfg.cdn_sign_key_name latestBytes = none →
      home cfg store false now url =
        { sessionLoggedIn := true, secretIds := [cfg.cdn_sign_key_name],
          response := none } := by
  intro cfg store now url h
  simp only [home, h]

/-- C5 counterexample: the claim's "the session state is as it was before
the request" is false — after a request whose secret fetch fails, the
logged-in flag is no longer `false`. -/
theorem home_secret_failure_counterexample :
    ¬ ((home cfg0 (fun _ => none) false 0 []).sessionLoggedIn = false) := by decide

/-- C5 witness: the amended failure behavior at a concrete failing store. -/
theorem home_secret_failure_witness :
    home cfg0 (fun _ => none) false 0 [] =
      { sessionLoggedIn := true, secretIds := [cfg0.cdn_sign_key_name],
        response := none } :=
  home_secret_failure cfg0 (fun _ => none) 0 [] (by decide)

/-- C7: `GET /logout` clears the session flag, responds with a 302 redirect
to `/?gcp-iap-mode=CLEAR_LOGIN_COOKIE`, overwrites `Cloud-CDN-Cookie` with
the empty value and transport expiry 0 (the Unix epoch, hence at or before
it), and never contacts the secret store. -/
theorem logout_clears :
    ∀ cfg loggedIn,
      logout cfg loggedIn =
        { sessionLoggedIn := false, secretIds := [],
          response := some (.redirectResp
            (asciiBytes "/?gcp-iap-mode=CLEAR_LOGIN_COOKIE") 302
            [⟨asciiBytes "Cloud-CDN-Cookie", [], 0, cfg.gcs_path⟩]) } :=
  fun _ _ => rfl

/-- C8 (amended): the not-logged-in `GET /` redirect target is the request
URL with every occurrence of the substring `http:` replaced by `https:` —
this forces the scheme to https, but also rewrites any other occurrence of
`http:` in the URL (for example inside the query string). -/
theorem home_redirect_http_replacement :
    ∀ cfg store now url keyVal decodedKey,
      get_secret cfg.project_id store cfg.cdn_sign_key_name latestBytes = some keyVal →
      urlsafe_b64decode keyVal = some decodedKey →
      ∃ cookie, home cfg store false now url =
        { sessionLoggedIn := true, secretIds := [cfg.cdn_sign_key_name],
          response := some (.redirectResp
            (pyReplace url (asciiBytes "http:") (asciiBytes "https:")) 302 [cookie]) } :=
  fun cfg store now url keyVal decodedKey h1 h2 =>
    ⟨_, home_issue_shape cfg store now url keyVal decodedKey h1 h2⟩

/-- C8 counterexample: for the request URL `http://h/?a=http://x` the
redirect target is `https://h/?a=https://x`, not the claimed "same URL with
only the scheme changed" `https://h/?a=http://x` — the query part changed
too. -/
theorem home_redirect_counterexample :
    respLocation (home cfg0 store0 false 0 (asciiBytes "http://h/?a=http://x")) =
        some (asciiBytes "https://h/?a=https://x") ∧
    asciiBytes "https://h/?a=https://x" ≠ asciiBytes "https://h/?a=http://x" := by
  constructor
  · rw [home_issue_shape cfg0 store0 0 (asciiBytes "http://h/?a=http://x")
      (asciiBytes "AAAA") [0, 0, 0] (by decide) (by decide)]
    show some (pyReplace (asciiBytes "http://h/?a=http://x")
      (asciiBytes "http:") (asciiBytes "https:")) = _
    decide
  · decide

/-- C8 witness: the amended redirect shape at a concrete request. -/
theorem home_redirect_http_replacement_witness :
    ∃ cookie, home cfg0 store0 false 0 (asciiBytes "http://h") =
      { sessionLoggedIn := true, secretIds := [cfg0.cdn_sign_key_name],
        response := some (.redirectResp
          (pyReplace (asciiBytes "http://h") (asciiBytes "http:") (asciiBytes "https:"))
          302 [cookie]) } :=
  home_redirect_http_replacement cfg0 store0 0 (asciiBytes "http://h")
    (asciiBytes "AAAA") [0, 0, 0] (by decide) (by decide)

theorem dropWhile_append_all (p : Nat → Bool) :
    ∀ (l1 l2 : List Nat), (∀ c ∈ l1, p c = true) →
      (l1 ++ l2).dropWhile p = l2.dropWhile p := by
  intro l1 l2 h
  induction l1 with
  | nil => simp
  | cons a as ih =>
    rw [List.cons_append, List.dropWhile_cons, if_pos (h a (by simp))]
    exact ih (fun c hc => h c (by simp [hc]))

theorem rstrip_append_ws (p ws : List Nat) (h : ∀ c ∈ ws, isPySpace c = true) :
    rstripBytes (p ++ ws) = rstripBytes p := by
  unfold rstripBytes
  rw [List.reverse_append,
    dropWhile_append_all isPySpace ws.reverse p.reverse
      (fun c hc => h c (List.mem_reverse.mp hc))]

/-- C10: `get_secret` right-strips the decoded payload, so a stored secret
with trailing whitespace (such as a trailing newline) and the same secret
without it yield the identical key string, hence the identical signing
key. -/
theorem get_secret_trailing_whitespace :
    ∀ projectId secretId versionId payload ws,
      (∀ c ∈ ws, isPySpace c = true) →
      get_secret projectId (fun _ => some (payload ++ ws)) secretId versionId =
        get_secret projectId (fun _ => some payload) secretId versionId := by
  intro projectId secretId versionId payload ws h
  simp only [get_secret]
  rw [rstrip_append_ws payload ws h]

/-- C10 witness: a trailing newline on the stored payload is invisible. -/
theorem get_secret_trailing_whitespace_witness :
    get_secret [] (fun _ => some (asciiBytes "AA==" ++ [10])) [] [] =
      get_secret [] (fun _ => some (asciiBytes "AA==")) [] [] :=
  get_secret_trailing_whitespace [] [] [] (asciiBytes "AA==") [10] (by decide)

theorem b64Val_of_char (c : Nat) (h : isUrlB64Char c = true) : ∃ v, b64Val c = some v := by
  have h' : (65 ≤ c ∧ c ≤ 90) ∨ (97 ≤ c ∧ c ≤ 122) ∨ (48 ≤ c ∧ c ≤ 57) ∨ c = 45 ∨ c = 95 := by
    simpa [isUrlB64Char] using h
  unfold b64Val
  rcases h' with h1 | h1 | h1 | h1 | h1
  · rw [if_pos h1]; exact ⟨_, rfl⟩
  · rw [if_neg (by omega), if_pos h1]; exact ⟨_, rfl⟩
  · rw [if_neg (by omega), if_neg (by omega), if_pos h1]; exact ⟨_, rfl⟩
  · rw [if_neg (by omega), if_neg (by omega), if_neg (by omega), if_pos (Or.inr h1)]
    exact ⟨_, rfl⟩
  · rw [if_neg (by omega), if_neg (by omega), if_neg (by omega), if_neg (by omega),
      if_pos (Or.inr h1)]
    exact ⟨_, rfl⟩

theorem b64Val_ne_pad (c v : Nat) (hv : b64Val c = some v) : ¬ (c = 61) := by
  intro he
  rw [he, (by decide : b64Val 61 = none)] at hv
  cases hv

theorem a2b_step0 (c v : Nat) (hv : b64Val c = some v) (rest : List Nat)
    (lc pads : Nat) (acc : List Nat) :
    a2bB64 (c :: rest) 0 lc pads acc = a2bB64 rest 1 v 0 acc := by
  simp only [a2bB64, if_neg (b64Val_ne_pad c v hv), hv]

theorem a2b_step1 (c v : Nat) (hv : b64Val c = some v) (rest : List Nat)
    (lc pads : Nat) (acc : List Nat) :
    a2bB64 (c :: rest) 1 lc pads acc =
      a2bB64 rest 2 (v % 16) 0 (((lc <<< 2) ||| (v >>> 4)) :: acc) := by
  simp only [a2bB64, if_neg (b64Val_ne_pad c v hv), hv]

theorem a2b_step2 (c v : Nat) (hv : b64Val c = some v) (rest : List Nat)
    (lc pads : Nat) (acc : List Nat) :
    a2bB64 (c :: rest) 2 lc pads acc =
      a2bB64 rest 3 (v % 4) 0 (((lc <<< 4) ||| (v >>> 2)) :: acc) := by
  simp only [a2bB64, if_neg (b64Val_ne_pad c v hv), hv]

theorem a2b_step3 (c v : Nat) (hv : b64Val c = some v) (rest : List Nat)
    (lc pads : Nat) (acc : List Nat) :
    a2bB64 (c :: rest) 3 lc pads acc =
      a2bB64 rest 0 0 0 (((lc <<< 6) ||| v) :: acc) := by
  simp only [a2bB64, if_neg (b64Val_ne_pad c v hv), hv]

theorem a2b_valid_aux : ∀ (l : List Nat), specValidUrlsafeB64 l = true →
    ∀ acc : List Nat, ∃ r, a2bB64 l 0 0 0 acc = some r
  | [], _, acc => ⟨acc.reverse, rfl⟩
  | [c1], h, _ => by simp [specValidUrlsafeB64] at h
  | [c1, c2], h, _ => by simp [specValidUrlsafeB64] at h
  | [c1, c2, c3], h, _ => by simp [specValidUrlsafeB64] at h
  | c1 :: c2 :: c3 :: c4 :: rest, h, acc => by
      rw [specValidUrlsafeB64] at h
      simp only [Bool.and_eq_true] at h
      obtain ⟨⟨h1, h2⟩, htail⟩ := h
      obtain ⟨v1, hv1⟩ := b64Val_of_char c1 h1
      obtain ⟨v2, hv2⟩ := b64Val_of_char c2 h2
      rw [a2b_step0 c1 v1 hv1, a2b_step1 c2 v2 hv2]
      by_cases hA : rest = [] ∧ c3 = 61 ∧ c4 = 61
      · obtain ⟨he, hc3, hc4⟩ := hA
        subst he; subst hc3; subst hc4
        exact ⟨_, rfl⟩
      · rw [if_neg hA] at htail
        by_cases hB : rest = [] ∧ c4 = 61
        · rw [if_pos hB] at htail
          obtain ⟨he, hc4⟩ := hB
          subst he; subst hc4
          obtain ⟨v3, hv3⟩ := b64Val_of_char c3 htail
          rw [a2b_step2 c3 v3 hv3]
          exact ⟨_, rfl⟩
        · rw [if_neg hB] at htail
          simp only [Bool.and_eq_true] at htail
          obtain ⟨⟨h3, h4⟩, hrec⟩ := htail
          obtain ⟨v3, hv3⟩ := b64Val_of_char c3 h3
          obtain ⟨v4, hv4⟩ := b64Val_of_char c4 h4
          rw [a2b_step2 c3 v3 hv3, a2b_step3 c4 v4 hv4]
          exact a2b_valid_aux rest hrec _

theorem isUrlB64Char_lt128 (c : Nat) (h : isUrlB64Char c = true) : c < 128 := by
  have h' : (65 ≤ c ∧ c ≤ 90) ∨ (97 ≤ c ∧ c ≤ 122) ∨ (48 ≤ c ∧ c ≤ 57) ∨ c = 45 ∨ c = 95 := by
    simpa [isUrlB64Char] using h
  omega

theorem valid_chars_lt128 : ∀ (l : List Nat), specValidUrlsafeB64 l = true →
    l.all (fun c => decide (c < 128)) = true
  | [], _ => rfl
  | [c1], h => by simp [specValidUrlsafeB64] at h
  | [c1, c2], h => by simp [specValidUrlsafeB64] at h
  | [c1, c2, c3], h => by simp [specValidUrlsafeB64] at h
  | c1 :: c2 :: c3 :: c4 :: rest, h => by
      rw [specValidUrlsafeB64] at h
      simp only [Bool.and_eq_true] at h
      obtain ⟨⟨h1, h2⟩, htail⟩ := h
      simp only [List.all_cons, Bool.and_eq_true, decide_eq_true_eq]
      refine ⟨isUrlB64Char_lt128 c1 h1, isUrlB64Char_lt128 c2 h2, ?_⟩
      by_cases hA : rest = [] ∧ c3 = 61 ∧ c4 = 61
      · obtain ⟨he, hc3, hc4⟩ := hA
        subst he; subst hc3; subst hc4
        simp
      · rw [if_neg hA] at htail
        by_cases hB : rest = [] ∧ c4 = 61
        · obtain ⟨he, hc4⟩ := hB
          subst he; subst hc4
          rw [if_pos ⟨rfl, rfl⟩] at htail
          simp [isUrlB64Char_lt128 c3 htail]
        · rw [if_neg hB] at htail
          simp only [Bool.and_eq_true] at htail
          obtain ⟨⟨h3, h4⟩, hrec⟩ := htail
          have := valid_chars_lt128 rest hrec
          simp only [List.all_eq_true, decide_eq_true_eq] at this ⊢
          exact ⟨isUrlB64Char_lt128 c3 h3, isUrlB64Char_lt128 c4 h4, this⟩

/-- C6 (amended): `sign_cookie` fails (with the key-decode error) exactly
when `urlsafe_b64decode` rejects `base64Key` — a non-ASCII byte, or base64
data characters that end mid-quad without terminating padding — and on
failure no cookie string is produced. Every valid URL-safe base64 key
decodes successfully; but the converse of the claim fails: decoding is
lenient, so some keys that are not valid URL-safe base64 also succeed. -/
theorem sign_cookie_key_decode :
    (∀ urlPref keyName base64Key micros,
        sign_cookie urlPref keyName base64Key micros = none ↔
          urlsafe_b64decode base64Key = none) ∧
    (∀ base64Key, specValidUrlsafeB64 base64Key = true →
        urlsafe_b64decode base64Key ≠ none) := by
  constructor
  · intro urlPref keyName base64Key micros
    cases h : urlsafe_b64decode base64Key with
    | none => simp [sign_cookie, h]
    | some decodedKey =>
        rw [sign_cookie_eq_of_decode urlPref keyName base64Key micros decodedKey h]
        simp
  · intro base64Key hv
    obtain ⟨r, hr⟩ := a2b_valid_aux base64Key hv []
    simp [urlsafe_b64decode, valid_chars_lt128 base64Key hv, hr]

/-- C6 counterexample: `"++++"` is not valid URL-safe base64 (the spec's
alphabet replaces `+` with `-`), yet `sign_cookie` does not fail on it —
the decoder accepts the standard alphabet after translation — refuting the
claimed "fails if and only if base64Key is not valid URL-safe base64". -/
theorem sign_cookie_key_decode_counterexample :
    specValidUrlsafeB64 (asciiBytes "++++") = false ∧
    sign_cookie [] [] (asciiBytes "++++") 0 ≠ none := by
  refine ⟨by decide, ?_⟩
  rw [sign_cookie_eq_of_decode [] [] (asciiBytes "++++") 0 [251, 239, 190] (by decide)]
  exact fun hc => Option.noConfusion hc

/-- C6 witness: a valid URL-safe base64 key decodes, hence signing
succeeds on it. -/
theorem sign_cookie_key_decode_witness :
    specValidUrlsafeB64 (asciiBytes "AA==") = true ∧
    urlsafe_b64decode (asciiBytes "AA==") ≠ none :=
  ⟨by decide, sign_cookie_key_decode.2 (asciiBytes "AA==") (by decide)⟩
